import Mathlib

/-!
Verification of the `DataStore` layer of the PIM academic-records API
(`app/repositories.py`) together with the derived reporting queries
(`app/routers/relatorios.py`).

Modelling conventions:
* Python numeric values (floats) are modelled as exact rationals `ℚ`;
  `round(x, k)` is Python's round-half-to-even, modelled exactly on `ℚ`.
* Python dicts are modelled as insertion-ordered association lists.
  Assignment to an existing key replaces the value in place; assignment
  to a fresh key appends at the end — exactly Python's dict semantics.
* A value sitting in a submission's `"nota"` slot can be any JSON value
  (the pydantic model `Atividade.entregas : Dict[str, dict]` does not
  constrain it); it is modelled by `JVal`: a number, a string that
  `float()` parses, or a value that `float()` rejects.
* Raising `ValueError(msg)` is modelled by `Except.error` carrying a
  constructor for the error taxonomy (DuplicateKey / NotFound /
  InvalidValue) together with the exact message string of the source.
* The JSON file `data/db.json` is modelled by a `Snapshot` value stored
  in `World.file`; `json.dump` turns the integer keys of the
  `atividades` dict into decimal strings (Python `str`), and `_load`
  applies Python `int` to each key; both are modelled explicitly.
-/

deriving instance DecidableEq for Except

namespace PIM

/-- A JSON value that may sit in a grade slot: a number, a numeric
string (accepted by Python `float`), or anything `float()` rejects. -/
inductive JVal where
  | jnum (q : ℚ)
  | jstrNum (q : ℚ)
  | jstrBad
deriving DecidableEq, Repr

/-- Python `float(v)`: succeeds on numbers and numeric strings. -/
def toFloat : JVal → Option ℚ
  | .jnum q => some q
  | .jstrNum q => some q
  | .jstrBad => none

/-- `app/models.py` `Aluno`: nome/ra/curso plus three optional grades. -/
structure Aluno where
  nome : String
  ra : String
  curso : String
  np1 : Option ℚ := none
  np2 : Option ℚ := none
  pim : Option ℚ := none
deriving DecidableEq, Repr

/-- `app/models.py` `Turma`: codigo, nome, list of member RAs. -/
structure Turma where
  codigo : String
  nome : String
  alunos : List String := []
deriving DecidableEq, Repr

/-- One submission payload: the open-ended dict
`{"arquivo": str?, "nota": <any>?}` stored in `Atividade.entregas`. -/
structure Entrega where
  arquivo : Option String := none
  nota : Option JVal := none
deriving DecidableEq, Repr

/-- `app/models.py` `Atividade`: id, owning class code, title, due-date
string, and the submissions dict keyed by RA. -/
structure Atividade where
  id : Nat
  turma_codigo : String
  titulo : String
  data_entrega : String
  entregas : List (String × Entrega) := []
deriving DecidableEq, Repr

/-- Python dict lookup `d.get(k)` on an insertion-ordered assoc list. -/
def lookupA {κ α : Type} [DecidableEq κ] : List (κ × α) → κ → Option α
  | [], _ => none
  | (k, v) :: t, k2 => if k = k2 then some v else lookupA t k2

/-- Python dict assignment `d[k] = v`: replace in place if the key is
present, else append at the end. -/
def updA {κ α : Type} [DecidableEq κ] : List (κ × α) → κ → α → List (κ × α)
  | [], k, v => [(k, v)]
  | (k2, v2) :: t, k, v =>
    if k2 = k then (k, v) :: t else (k2, v2) :: updA t k v

/-- Python `buckets[k] += 1`.  All call sites have `k` among the keys
(the clamp guarantees `0 ≤ k ≤ 10` and all eleven keys are initialised),
so the Python `KeyError` branch is unreachable; it is modelled as the
identity on the empty list. -/
def incA : List (Nat × Nat) → Nat → List (Nat × Nat)
  | [], _ => []
  | (k2, c) :: t, k =>
    if k2 = k then (k2, c + 1) :: t else (k2, c) :: incA t k

/-- Floor of a rational, computed as floor division of numerator by
denominator (the denominator of a `ℚ` is positive). -/
def qfloor (q : ℚ) : ℤ := q.num.fdiv q.den

/-- Python `round(x)` (no digits argument): round half to even. -/
def pyRound (q : ℚ) : ℤ :=
  let f := qfloor q
  let r := q - (f : ℚ)
  if r < 1 / 2 then f
  else if 1 / 2 < r then f + 1
  else if f % 2 = 0 then f else f + 1

/-- Python `round(x, 2)`: round half to even at two decimal places. -/
def round2 (q : ℚ) : ℚ := (pyRound (q * 100) : ℚ) / 100

/-- In-memory state of `DataStore`: the three dicts plus the
auto-increment counter `_next_atv_id`. -/
structure DataStore where
  alunos : List (String × Aluno) := []
  turmas : List (String × Turma) := []
  atividades : List (Nat × Atividade) := []
  next_atv_id : Nat := 1
deriving DecidableEq, Repr

/-- Error taxonomy: every `raise ValueError(msg)` of the source is
tagged with its kind and carries the exact source message. -/
inductive Err where
  | duplicateKey (msg : String)
  | notFound (msg : String)
  | invalidValue (msg : String)
deriving DecidableEq, Repr

/-- The JSON document written by `_save`.  `json.dump` stringifies the
integer keys of the `atividades` dict; `model_dump` of the pydantic
records is the identity on our typed records. -/
structure Snapshot where
  alunos : List (String × Aluno)
  turmas : List (String × Turma)
  atividades : List (String × Atividade)
  next_id : Nat
deriving DecidableEq, Repr

/-- Decimal digits of `n`, least significant first (empty for 0). -/
def digitsRev (n : Nat) : List Char :=
  if h : n = 0 then []
  else Nat.digitChar (n % 10) :: digitsRev (n / 10)
decreasing_by exact Nat.div_lt_self (Nat.pos_of_ne_zero h) (by omega)

/-- Python `str(n)` for a natural number (decimal notation). -/
def pyStr (n : Nat) : String :=
  if n = 0 then "0" else ⟨(digitsRev n).reverse⟩

/-- Python `int(s)` restricted to the unsigned decimal strings that
`str` produces: fails (raises) unless every character is a digit. -/
def pyInt (s : String) : Option Nat :=
  if s.data ≠ [] ∧ s.data.all Char.isDigit then
    some (s.data.foldl (fun acc c => acc * 10 + (c.toNat - 48)) 0)
  else none

/-- `DataStore._save`: the snapshot document built from the state
(dumping each record, stringifying the `atividades` keys). -/
def save_store (s : DataStore) : Snapshot :=
  { alunos := s.alunos
    turmas := s.turmas
    atividades := s.atividades.map (fun p => (pyStr p.1, p.2))
    next_id := s.next_atv_id }

/-- The dict comprehension `{int(i): Atividade(**atv) for i, atv in ...}`
of `_load`: parse every key, propagating a failure of `int(i)`. -/
def load_keys : List (String × Atividade) → Option (List (Nat × Atividade))
  | [] => some []
  | (s, a) :: t =>
    match pyInt s, load_keys t with
    | some i, some t2 => some ((i, a) :: t2)
    | _, _ => none

/-- `DataStore._load`, given a parsed JSON document: rebuild the three
dicts (`Aluno(**a)` etc. are the identity on typed records), applying
`int` to each `atividades` key, and restore `_next_atv_id`.  `none`
models `int(i)` raising on a malformed key. -/
def load_store (p : Snapshot) : Option DataStore :=
  (load_keys p.atividades).map
    (fun atvs =>
      { alunos := p.alunos
        turmas := p.turmas
        atividades := atvs
        next_atv_id := p.next_id })

/-- The in-memory store paired with the persisted `data/db.json`
mirror (`none` = file absent / never written). -/
structure World where
  store : DataStore := {}
  file : Option Snapshot := none
deriving DecidableEq, Repr

/-- `self._save()`: overwrite the file with the current snapshot. -/
def doSave (w : World) : World :=
  { w with file := some (save_store w.store) }

/-- `DataStore.add_aluno`: reject a duplicate RA, else insert and save. -/
def add_aluno (w : World) (aluno : Aluno) : Except Err Aluno × World :=
  if (lookupA w.store.alunos aluno.ra).isSome then
    (.error (.duplicateKey "RA já cadastrado."), w)
  else
    let st := { w.store with alunos := updA w.store.alunos aluno.ra aluno }
    (.ok aluno, doSave { w with store := st })

/-- `DataStore.add_turma`: reject a duplicate code, else insert and save. -/
def add_turma (w : World) (turma : Turma) : Except Err Turma × World :=
  if (lookupA w.store.turmas turma.codigo).isSome then
    (.error (.duplicateKey "Turma já cadastrada."), w)
  else
    let st := { w.store with turmas := updA w.store.turmas turma.codigo turma }
    (.ok turma, doSave { w with store := st })

/-- `DataStore.add_aluno_to_turma`: validate class and student, append
the RA to the membership list unless already a member, save. -/
def add_aluno_to_turma (w : World) (codigo ra : String) :
    Except Err Turma × World :=
  match lookupA w.store.turmas codigo with
  | none => (.error (.notFound "Turma não encontrada."), w)
  | some turma =>
    if (lookupA w.store.alunos ra).isNone then
      (.error (.notFound "Aluno (RA) não encontrado."), w)
    else
      let turma :=
        if ra ∉ turma.alunos then { turma with alunos := turma.alunos ++ [ra] }
        else turma
      let st := { w.store with turmas := updA w.store.turmas codigo turma }
      (.ok turma, doSave { w with store := st })

/-- `DataStore.add_atividade`: overwrite the incoming id with
`_next_atv_id`, bump the counter, insert, save.  Never fails. -/
def add_atividade (w : World) (atv : Atividade) : Atividade × World :=
  let atv := { atv with id := w.store.next_atv_id }
  let st :=
    { w.store with
      next_atv_id := w.store.next_atv_id + 1
      atividades := updA w.store.atividades atv.id atv }
  (atv, doSave { w with store := st })

/-- `DataStore.add_entrega`: validate assignment and student, then set
only the `"arquivo"` slot of the (possibly fresh) payload, save. -/
def add_entrega (w : World) (atv_id : Nat) (ra arquivo : String) :
    Except Err Atividade × World :=
  match lookupA w.store.atividades atv_id with
  | none => (.error (.notFound "Atividade não encontrada."), w)
  | some atv =>
    if (lookupA w.store.alunos ra).isNone then
      (.error (.notFound "Aluno (RA) não encontrado."), w)
    else
      let payload := (lookupA atv.entregas ra).getD {}
      let payload := { payload with arquivo := some arquivo }
      let atv := { atv with entregas := updA atv.entregas ra payload }
      let st := { w.store with atividades := updA w.store.atividades atv_id atv }
      (.ok atv, doSave { w with store := st })

/-- `DataStore.set_nota_entrega`: validate the grade (present, numeric,
in `[0,10]`) before any lookup, then validate assignment and student,
then set only the `"nota"` slot of the payload, save. -/
def set_nota_entrega (w : World) (atv_id : Nat) (ra : String)
    (nota : Option JVal) : Except Err Atividade × World :=
  match nota with
  | none => (.error (.invalidValue "Informe uma nota."), w)
  | some v =>
    match toFloat v with
    | none => (.error (.invalidValue "Nota inválida."), w)
    | some n =>
      if n < 0 ∨ 10 < n then
        (.error (.invalidValue "Nota deve estar entre 0 e 10."), w)
      else
        match lookupA w.store.atividades atv_id with
        | none => (.error (.notFound "Atividade não encontrada."), w)
        | some atv =>
          if (lookupA w.store.alunos ra).isNone then
            (.error (.notFound "Aluno (RA) não encontrado."), w)
          else
            let payload := (lookupA atv.entregas ra).getD {}
            let payload := { payload with nota := some (.jnum n) }
            let atv := { atv with entregas := updA atv.entregas ra payload }
            let st :=
              { w.store with atividades := updA w.store.atividades atv_id atv }
            (.ok atv, doSave { w with store := st })

/-- The consolidated grade view returned by `get_notas`/`set_notas`. -/
structure NotasView where
  np1 : Option ℚ
  np2 : Option ℚ
  pim : Option ℚ
  media : Option ℚ
  situacao : String
deriving DecidableEq, Repr

/-- `DataStore.get_notas`: weighted average `round((np1*4+np2*4+pim*2)/10, 2)`
and pass/fail status, computed only when all three grades are present. -/
def get_notas (s : DataStore) (ra : String) : Option NotasView :=
  match lookupA s.alunos ra with
  | none => none
  | some aluno =>
    match aluno.np1, aluno.np2, aluno.pim with
    | some a, some b, some c =>
      let media := round2 ((a * 4 + b * 4 + c * 2) / 10)
      some
        { np1 := some a, np2 := some b, pim := some c, media := some media
          situacao := if 7 ≤ media then "Aprovado" else "Reprovado" }
    | np1, np2, pim =>
      some { np1 := np1, np2 := np2, pim := pim, media := none
             situacao := "Sem notas" }

/-- The inner `_val(v, nome)` of `set_notas`: accept an absent value,
reject a value `float()` cannot parse or one outside `[0,10]`, naming
the field in the message. -/
def val_nota (v : Option JVal) (nome : String) : Except Err Unit :=
  match v with
  | none => .ok ()
  | some jv =>
    match toFloat jv with
    | none => .error (.invalidValue (nome ++ " inválida."))
    | some n =>
      if n < 0 ∨ 10 < n then
        .error (.invalidValue (nome ++ " deve estar entre 0 e 10."))
      else .ok ()

/-- `setattr(aluno, fld, float(v))` guarded by `if v is not None`.
`float(v)` cannot fail here — `_val` has already parsed it — so the
dead failure branch is collapsed with `getD 0`. -/
def set_grade (old : Option ℚ) (v : Option JVal) : Option ℚ :=
  match v with
  | none => old
  | some jv => some ((toFloat jv).getD 0)

/-- `DataStore.set_notas`: look the student up, validate NP1, NP2, PIM
in that order (before any assignment), then assign the provided fields,
save, and return the recomputed consolidated view. -/
def set_notas (w : World) (ra : String) (np1 np2 pim : Option JVal) :
    Except Err (Option NotasView) × World :=
  match lookupA w.store.alunos ra with
  | none => (.error (.notFound "Aluno não encontrado."), w)
  | some aluno =>
    match val_nota np1 "NP1" with
    | .error e => (.error e, w)
    | .ok _ =>
      match val_nota np2 "NP2" with
      | .error e => (.error e, w)
      | .ok _ =>
        match val_nota pim "PIM" with
        | .error e => (.error e, w)
        | .ok _ =>
          let aluno :=
            { aluno with
              np1 := set_grade aluno.np1 np1
              np2 := set_grade aluno.np2 np2
              pim := set_grade aluno.pim pim }
          let st := { w.store with alunos := updA w.store.alunos ra aluno }
          let w2 := doSave { w with store := st }
          (.ok (get_notas w2.store ra), w2)

/-- `DataStore.atividades_da_turma`: the assignments whose class-code
field equals `codigo`, in insertion (= creation) order. -/
def atividades_da_turma (s : DataStore) (codigo : String) : List Atividade :=
  (s.atividades.map Prod.snd).filter (fun a => a.turma_codigo = codigo)

/-- `DataStore.pendencias_nota`: for each assignment of the class, the
member RAs whose payload's `"nota"` slot is `None`/absent (the code
checks only `nota is None`). -/
def pendencias_nota (s : DataStore) (codigo : String) :
    Except Err (List (Nat × List String)) :=
  match lookupA s.turmas codigo with
  | none => .error (.notFound "Turma não encontrada.")
  | some t =>
    .ok ((atividades_da_turma s codigo).foldl
      (fun out atv =>
        updA out atv.id
          (t.alunos.filter (fun ra =>
            match lookupA atv.entregas ra with
            | none => true
            | some payload => payload.nota = none)))
      [])

/-- One per-assignment row of the class overview report. -/
structure AtvRel where
  id : Nat
  titulo : String
  data_entrega : String
  total_entregas : Nat
  percentual_entregas : ℚ
deriving DecidableEq, Repr

/-- The class overview returned by `GET /relatorios/turma/{codigo}`. -/
structure RelatorioTurma where
  turma : String
  nome : String
  total_alunos : Nat
  total_atividades : Nat
  atividades : List AtvRel
  media_entregas_por_atividade : ℚ
deriving DecidableEq, Repr

/-- `relatorios.relatorio_turma`: per-assignment submission counts and
percentages (0.0 when the membership list is empty), plus the mean
submission count per assignment (0.0 when there are no assignments). -/
def relatorio_turma (s : DataStore) (codigo : String) :
    Except Err RelatorioTurma :=
  match lookupA s.turmas codigo with
  | none => .error (.notFound "Turma não encontrada.")
  | some turma =>
    let atividades :=
      (s.atividades.map Prod.snd).filter (fun atv => atv.turma_codigo = codigo)
    let linhas := atividades.map (fun atv =>
      let total_entregas : Nat := atv.entregas.length
      let percentual : ℚ :=
        if turma.alunos ≠ [] then
          round2 (((total_entregas : ℚ) / (turma.alunos.length : ℚ)) * 100)
        else 0
      { id := atv.id, titulo := atv.titulo, data_entrega := atv.data_entrega
        total_entregas := total_entregas
        percentual_entregas := percentual : AtvRel })
    let media : ℚ :=
      if atividades ≠ [] then
        round2
          (((atividades.map (fun atv => atv.entregas.length)).sum : ℚ) /
            (atividades.length : ℚ))
      else 0
    .ok
      { turma := turma.codigo, nome := turma.nome
        total_alunos := turma.alunos.length
        total_atividades := atividades.length
        atividades := linhas
        media_entregas_por_atividade := media }

/-- `relatorios._coletar_notas_da_atividade`: the grade values of an
assignment's submissions that `float()` parses and that lie in
`[0,10]`; absent, unparseable, or out-of-range values are skipped. -/
def coletar_notas (atv : Atividade) : List ℚ :=
  (atv.entregas.map Prod.snd).filterMap (fun payload =>
    match payload.nota with
    | none => none
    | some valor =>
      match toFloat valor with
      | none => none
      | some n => if 0 ≤ n ∧ n ≤ 10 then some n else none)

/-- Result of `distribuicao_notas`: either the no-grades message or the
histogram dict with keys 0..10 in insertion order. -/
inductive DistOut where
  | semNotas
  | dist (buckets : List (Nat × Nat))
deriving DecidableEq, Repr

/-- The bucket a grade is tallied into: the Python expression
`min(max(int(round(n)), 0), 10)` of `distribuicao_notas`. -/
def bucketOf (n : ℚ) : Nat := (min (max (pyRound n) 0) 10).toNat

/-- `relatorios.distribuicao_notas`: initialise eleven buckets 0..10 at
zero, then tally each collected grade into bucket `bucketOf n`. -/
def distribuicao_notas (s : DataStore) (atividade_id : Nat) :
    Except Err DistOut :=
  match lookupA s.atividades atividade_id with
  | none => .error (.notFound "Atividade não encontrada.")
  | some atv =>
    let notas := coletar_notas atv
    if notas = [] then .ok .semNotas
    else
      .ok (.dist (notas.foldl (fun buckets n => incA buckets (bucketOf n))
        ((List.range 11).map (fun i => (i, 0)))))

/-- Run a list of `add_atividade` calls in sequence, collecting the ids
the store assigns. -/
def runAdds (w : World) : List Atividade → List Nat
  | [] => []
  | a :: t => (add_atividade w a).1.id :: runAdds (add_atividade w a).2 t

/-- Whether `set_notas` must reject a provided grade value: `float()`
fails on it, or it lies outside `[0,10]`. -/
def invalidGrade (v : Option JVal) : Bool :=
  match v with
  | none => false
  | some jv =>
    match toFloat jv with
    | none => true
    | some n => decide (n < 0) || decide (10 < n)

/-- The message `_val` attaches to a rejected value for field `nome`. -/
def gradeMsg (v : Option JVal) (nome : String) : String :=
  match v with
  | none => ""
  | some jv =>
    match toFloat jv with
    | none => nome ++ " inválida."
    | some _ => nome ++ " deve estar entre 0 e 10."

/-! ### Concrete fixtures used by the witness theorems -/

/-- A student with all three grades set (np1=8, np2=6, pim=10). -/
def alunoR1 : Aluno :=
  { nome := "Aluno Um", ra := "R1", curso := "ADS", np1 := some 8, np2 := some 6, pim := some 10 }

/-- A second student record carrying the same RA as `alunoR1`. -/
def alunoR1dup : Aluno := { nome := "Outro Aluno", ra := "R1", curso := "GTI" }

/-- A class containing `R1`. -/
def turmaT : Turma := { codigo := "T", nome := "Turma T", alunos := ["R1"] }

/-- A class with an empty membership list. -/
def turmaVazia : Turma := { codigo := "T0", nome := "Turma Vazia", alunos := [] }

/-- A class used for the no-assignments case of the overview report. -/
def turmaU : Turma := { codigo := "U", nome := "Turma U", alunos := ["R1"] }

/-- An assignment where `R1` has a submission with a file and a grade. -/
def atvNotas : Atividade :=
  { id := 1, turma_codigo := "T", titulo := "PIM", data_entrega := "2024-06-01",
    entregas := [("R1", { arquivo := some "f.pdf", nota := some (.jnum (19 / 2)) })] }

/-- An assignment with three graded submissions: 7.4, 7.6 and 10.0. -/
def atvHist : Atividade :=
  { id := 1, turma_codigo := "T", titulo := "PIM", data_entrega := "2024-06-01",
    entregas :=
      [("R1", { nota := some (.jnum (37 / 5)) }),
       ("R2", { nota := some (.jnum (38 / 5)) }),
       ("R3", { nota := some (.jnum 10) })] }

/-- An assignment where the submission of `R1` carries a `nota` value
that is present but not a valid number. -/
def atvStrBad : Atividade :=
  { id := 1, turma_codigo := "T", titulo := "PIM", data_entrega := "2024-06-01",
    entregas := [("R1", { nota := some .jstrBad })] }

/-- An assignment of the zero-student class `T0`, with one submission. -/
def atvZeroT : Atividade :=
  { id := 1, turma_codigo := "T0", titulo := "PIM", data_entrega := "2024-06-01",
    entregas := [("R9", { arquivo := some "x.pdf" })] }

/-- Input to `add_atividade`; the incoming id 99 is always overwritten. -/
def atvIn : Atividade :=
  { id := 99, turma_codigo := "T", titulo := "Trabalho", data_entrega := "2024-06-01" }

/-- A store holding only the student `R1`. -/
def storeGrades : DataStore := { alunos := [("R1", alunoR1)] }

/-- World around `storeGrades`. -/
def worldGrades : World := { store := storeGrades }

/-- A store with student `R1`, class `T`, and the graded assignment 1. -/
def storeEnt : DataStore :=
  { alunos := [("R1", alunoR1)], turmas := [("T", turmaT)],
    atividades := [(1, atvNotas)], next_atv_id := 2 }

/-- World around `storeEnt`. -/
def worldEnt : World := { store := storeEnt }

/-- The `pendencias_nota` failing input: class `T` has member `R1`, and
assignment 1 holds a submission for `R1` whose `nota` is non-numeric. -/
def storeBug : DataStore :=
  { alunos := [("R1", alunoR1)], turmas := [("T", turmaT)],
    atividades := [(1, atvStrBad)] }

/-- A store holding only the histogram assignment. -/
def storeHist : DataStore := { atividades := [(1, atvHist)] }

/-- A store with the zero-student class and its assignment, plus the
class `U` that has no assignments at all. -/
def storeZero : DataStore :=
  { alunos := [("R1", alunoR1)], turmas := [("T0", turmaVazia), ("U", turmaU)],
    atividades := [(1, atvZeroT)] }

/-- A snapshot whose `next_id` field is 5 and which is otherwise empty. -/
def snap5 : Snapshot := { alunos := [], turmas := [], atividades := [], next_id := 5 }

/-- The store reloaded from `snap5`. -/
def store5 : DataStore := { next_atv_id := 5 }

/-! ### Library lemmas about the dict model -/

section

attribute [local semireducible] Rat.mul Rat.add Rat.sub Rat.inv

theorem lookupA_updA_self {κ α : Type} [DecidableEq κ]
    (l : List (κ × α)) (k : κ) (v : α) : lookupA (updA l k v) k = some v := by
  induction l with
  | nil => simp [updA, lookupA]
  | cons h t ih =>
    obtain ⟨k2, v2⟩ := h
    by_cases hk : k2 = k
    · simp [updA, hk, lookupA]
    · simp [updA, hk, lookupA, ih]

theorem lookupA_updA_ne {κ α : Type} [DecidableEq κ]
    (l : List (κ × α)) (k k2 : κ) (v : α) (h : k2 ≠ k) :
    lookupA (updA l k v) k2 = lookupA l k2 := by
  have h2 : ¬k = k2 := fun hh => h hh.symm
  induction l with
  | nil => simp [updA, lookupA, h2]
  | cons hd t ih =>
    obtain ⟨k3, v3⟩ := hd
    by_cases hk : k3 = k
    · subst hk
      simp [updA, lookupA, h2]
    · simp [updA, lookupA, hk, ih]

/-! ### Decimal printing/parsing round-trip (`str` / `int`) -/

theorem digitsRev_all_digits (n : Nat) :
    ∀ c ∈ digitsRev n, c.isDigit = true := by
  induction n using Nat.strong_induction_on with
  | _ n ih =>
    rw [digitsRev]
    by_cases h : n = 0
    · simp [h]
    · simp only [h, dite_false]
      intro c hc
      rcases List.mem_cons.mp hc with hc | hc
      · subst hc
        have h10 : n % 10 < 10 := Nat.mod_lt _ (by omega)
        interval_cases hm : (n % 10) <;> decide
      · exact ih (n / 10) (Nat.div_lt_self (Nat.pos_of_ne_zero h) (by omega)) c hc

theorem digitChar_toNat (d : Nat) (h : d < 10) :
    (Nat.digitChar d).toNat - 48 = d := by
  interval_cases d <;> decide

theorem foldl_digits_val (n : Nat) :
    ∀ a : Nat,
      (digitsRev n).reverse.foldl (fun acc c => acc * 10 + (c.toNat - 48)) a =
        a * 10 ^ (digitsRev n).length + n := by
  induction n using Nat.strong_induction_on with
  | _ n ih =>
    intro a
    rw [digitsRev]
    by_cases h : n = 0
    · simp [h]
    · simp only [h, dite_false, List.reverse_cons, List.foldl_append, List.foldl_cons,
        List.foldl_nil, List.length_cons]
      rw [ih (n / 10) (Nat.div_lt_self (Nat.pos_of_ne_zero h) (by omega)) a]
      rw [digitChar_toNat (n % 10) (Nat.mod_lt _ (by omega))]
      have hsplit : 10 * (n / 10) + n % 10 = n := Nat.div_add_mod n 10
      ring_nf
      omega

theorem pyInt_pyStr (n : Nat) : pyInt (pyStr n) = some n := by
  by_cases h : n = 0
  · subst h
    decide
  · have hne : digitsRev n ≠ [] := by
      rw [digitsRev]
      simp [h]
    rw [pyStr, if_neg h, pyInt]
    rw [if_pos]
    · have := foldl_digits_val n 0
      simp only [String.data]
      rw [this]
      simp
    · constructor
      · simpa using hne
      · simp only [String.data, List.all_eq_true]
        intro c hc
        exact digitsRev_all_digits n c (List.mem_reverse.mp hc)

theorem load_keys_save (l : List (Nat × Atividade)) :
    load_keys (l.map (fun p => (pyStr p.1, p.2))) = some l := by
  induction l with
  | nil => rfl
  | cons h t ih =>
    obtain ⟨i, a⟩ := h
    simp [load_keys, pyInt_pyStr, ih]

/-- Claim C5: serialising a store with `_save` and deserialising the
resulting snapshot with `_load` yields exactly the original store: the
same students, classes, assignments (submissions included) and the same
next-assignment-id counter. -/
theorem save_load_roundtrip (s : DataStore) :
    load_store (save_store s) = some s := by
  simp [load_store, save_store, load_keys_save]

theorem runAdds_range (l : List Atividade) :
    ∀ w : World, runAdds w l = List.range' w.store.next_atv_id l.length := by
  induction l with
  | nil => intro w; simp [runAdds]
  | cons a t ih =>
    intro w
    simp only [runAdds, List.length_cons, List.range', ih]
    rfl

/-- Claim C4: from an empty store the ids handed out by successive
`add_atividade` calls are `1, 2, …, n` — strictly increasing from 1,
whatever class each assignment belongs to — and after `_load` of a
snapshot the next id handed out is exactly the snapshot's `next_id`
field (so `next_id = 5` makes the next assignment receive id 5). -/
theorem add_atividade_ids_spec :
    (∀ (f : Option Snapshot) (l : List Atividade),
      runAdds { store := {}, file := f } l = List.range' 1 l.length) ∧
    (∀ (p : Snapshot) (st : DataStore) (f : Option Snapshot) (atv : Atividade),
      load_store p = some st →
      (add_atividade { store := st, file := f } atv).1.id = p.next_id) := by
  constructor
  · intro f l
    exact runAdds_range l _
  · intro p st f atv h
    rcases hk : load_keys p.atividades with _ | atvs
    · simp [load_store, hk] at h
    · simp only [load_store, hk, Option.map_some] at h
      obtain rfl := Option.some.inj h
      rfl

/-- Witness for C4: three creations from the empty store get ids
`[1, 2, 3]`, and after reloading `snap5` (whose `next_id` is 5) the
next creation gets id 5. -/
theorem add_atividade_ids_spec_witness :
    runAdds { store := {}, file := none } [atvIn, atvIn, atvIn] = [1, 2, 3] ∧
    (add_atividade { store := store5, file := none } atvIn).1.id = 5 := by
  constructor
  · exact (add_atividade_ids_spec.1 none [atvIn, atvIn, atvIn]).trans (by decide)
  · exact (add_atividade_ids_spec.2 snap5 store5 none atvIn (by decide)).trans (by decide)

/-- Claim C7: `add_aluno` with an RA that is already a student key
fails with the DuplicateKey error and returns the world — in-memory
store and persisted snapshot — exactly as it was: no field changes and
no file write happens. -/
theorem add_aluno_duplicate_spec (w : World) (aluno : Aluno)
    (h : (lookupA w.store.alunos aluno.ra).isSome = true) :
    add_aluno w aluno = (.error (.duplicateKey "RA já cadastrado."), w) := by
  simp [add_aluno, h]

/-- Witness for C7: re-adding RA `R1` to `worldGrades` is rejected and
the world is untouched. -/
theorem add_aluno_duplicate_spec_witness :
    (lookupA worldGrades.store.alunos alunoR1dup.ra).isSome = true ∧
    add_aluno worldGrades alunoR1dup =
      (.error (.duplicateKey "RA já cadastrado."), worldGrades) :=
  ⟨by decide, add_aluno_duplicate_spec worldGrades alunoR1dup (by decide)⟩

/-- Claim C10: every mutating operation that can fail with a domain
error (DuplicateKey, NotFound, InvalidValue) raises before any
in-memory change and before persisting: whenever the result is an
error, the world (store and snapshot file) equals the input world.  In
particular `set_notas` validates all provided fields before assigning
any of them. -/
theorem mutations_error_frame_spec :
    (∀ (w : World) (a : Aluno) (e : Err),
      (add_aluno w a).1 = .error e → (add_aluno w a).2 = w) ∧
    (∀ (w : World) (t : Turma) (e : Err),
      (add_turma w t).1 = .error e → (add_turma w t).2 = w) ∧
    (∀ (w : World) (codigo ra : String) (e : Err),
      (add_aluno_to_turma w codigo ra).1 = .error e →
        (add_aluno_to_turma w codigo ra).2 = w) ∧
    (∀ (w : World) (i : Nat) (ra arquivo : String) (e : Err),
      (add_entrega w i ra arquivo).1 = .error e → (add_entrega w i ra arquivo).2 = w) ∧
    (∀ (w : World) (i : Nat) (ra : String) (v : Option JVal) (e : Err),
      (set_nota_entrega w i ra v).1 = .error e → (set_nota_entrega w i ra v).2 = w) ∧
    (∀ (w : World) (ra : String) (v1 v2 v3 : Option JVal) (e : Err),
      (set_notas w ra v1 v2 v3).1 = .error e → (set_notas w ra v1 v2 v3).2 = w) := by
  refine ⟨?_, ?_, ?_, ?_, ?_, ?_⟩
  · intro w a e h
    by_cases hc : (lookupA w.store.alunos a.ra).isSome <;> simp [add_aluno, hc] at h ⊢
  · intro w t e h
    by_cases hc : (lookupA w.store.turmas t.codigo).isSome <;> simp [add_turma, hc] at h ⊢
  · intro w codigo ra e h
    rcases hm : lookupA w.store.turmas codigo with _ | t <;>
      simp only [add_aluno_to_turma, hm] at h ⊢
    by_cases hc : (lookupA w.store.alunos ra).isNone <;> simp [hc] at h ⊢
  · intro w i ra arquivo e h
    rcases hm : lookupA w.store.atividades i with _ | atv <;>
      simp only [add_entrega, hm] at h ⊢
    by_cases hc : (lookupA w.store.alunos ra).isNone <;> simp [hc] at h ⊢
  · intro w i ra v e h
    rcases hv : v with _ | jv <;> simp only [set_nota_entrega, hv] at h ⊢
    rcases hf : toFloat jv with _ | n <;> simp only [hf] at h ⊢
    by_cases hr : n < 0 ∨ 10 < n
    · simp [hr]
    · simp only [hr, if_false] at h ⊢
      rcases hm : lookupA w.store.atividades i with _ | atv <;> simp only [hm] at h ⊢
      by_cases hc : (lookupA w.store.alunos ra).isNone <;> simp [hc] at h ⊢
  · intro w ra v1 v2 v3 e h
    rcases hm : lookupA w.store.alunos ra with _ | aluno <;>
      simp only [set_notas, hm] at h ⊢
    rcases h1 : val_nota v1 "NP1" with e1 | u1 <;> simp only [h1] at h ⊢
    rcases h2 : val_nota v2 "NP2" with e2 | u2 <;> simp only [h2] at h ⊢
    rcases h3 : val_nota v3 "PIM" with e3 | u3 <;> simp only [h3] at h ⊢
    simp at h

/-- Witness for C10: the duplicate-RA failure of `add_aluno` leaves the
concrete world `worldGrades` unchanged. -/
theorem mutations_error_frame_spec_witness :
    (add_aluno worldGrades alunoR1dup).1 = .error (.duplicateKey "RA já cadastrado.") ∧
    (add_aluno worldGrades alunoR1dup).2 = worldGrades :=
  ⟨rfl, mutations_error_frame_spec.1 worldGrades alunoR1dup
    (.duplicateKey "RA já cadastrado.") rfl⟩

/-- Claim C1: for every student in the store, `get_notas` returns
`media = round((np1*4 + np2*4 + pim*2)/10, 2)` and
`situacao = "Aprovado"` iff `media ≥ 7.0` (else `"Reprovado"`) whenever
all three of np1, np2, pim are present, and `media` absent with
`situacao = "Sem notas"` whenever at least one of the three is absent. -/
theorem get_notas_spec (s : DataStore) (ra : String) (a : Aluno)
    (h : lookupA s.alunos ra = some a) :
    (∀ n1 n2 p : ℚ, a.np1 = some n1 → a.np2 = some n2 → a.pim = some p →
      get_notas s ra =
        some
          { np1 := some n1, np2 := some n2, pim := some p
            media := some (round2 ((n1 * 4 + n2 * 4 + p * 2) / 10))
            situacao :=
              if 7 ≤ round2 ((n1 * 4 + n2 * 4 + p * 2) / 10) then "Aprovado"
              else "Reprovado" }) ∧
    ((a.np1 = none ∨ a.np2 = none ∨ a.pim = none) →
      get_notas s ra =
        some { np1 := a.np1, np2 := a.np2, pim := a.pim, media := none
               situacao := "Sem notas" }) := by
  constructor
  · intro n1 n2 p h1 h2 h3
    simp [get_notas, h, h1, h2, h3]
  · intro hd
    rcases h1 : a.np1 with _ | n1 <;> rcases h2 : a.np2 with _ | n2 <;>
      rcases h3 : a.pim with _ | p <;> simp [get_notas, h, h1, h2, h3]
    simp [h1, h2, h3] at hd


/-- Witness for C1: for `alunoR1` (np1=8, np2=6, pim=10) the view is
`media = 7.6`, `situacao = "Aprovado"`; with `pim` removed the view has
no `media` and `situacao = "Sem notas"`. -/
theorem get_notas_spec_witness :
    lookupA storeGrades.alunos "R1" = some alunoR1 ∧
    get_notas storeGrades "R1" =
      some { np1 := some 8, np2 := some 6, pim := some 10
             media := some (38 / 5), situacao := "Aprovado" } :=
  ⟨by decide,
    ((get_notas_spec storeGrades "R1" alunoR1 (by decide)).1 8 6 10
      (by decide) (by decide) (by decide)).trans (by decide)⟩

/-- Claim C2 is refuted by the code: `pendencias_nota` includes an RA
only when the `nota` slot of its submission is absent (`is None`); a
submission whose `nota` is present but not a valid number — here the
member `R1` of class `T` in `storeBug`, whose assignment-1 submission
carries a non-numeric `nota` — is treated as graded and NOT reported,
although the claim (and the comment in the source) require it to be.
The code therefore returns an empty pendency list for assignment 1. -/
theorem pendencias_nota_nonNumeric_graded :
    pendencias_nota storeBug "T" = .ok [(1, [])] ∧
    (lookupA atvStrBad.entregas "R1").isSome = true ∧
    toFloat (((lookupA atvStrBad.entregas "R1").getD {}).nota.getD .jstrBad) = none := by
  refine ⟨?_, by decide, by decide⟩
  rfl

/-- Claim C3: for an existing assignment and student, `add_entrega`
overwrites only the file reference of the submission, keeping any
previously set grade; `set_nota_entrega` updates only the grade,
keeping any previously set file reference.  Other RAs' submissions are
untouched in both cases. -/
theorem entrega_frame_spec (w : World) (atv_id : Nat) (ra arquivo : String)
    (n : ℚ) (atv : Atividade)
    (hatv : lookupA w.store.atividades atv_id = some atv)
    (hra : (lookupA w.store.alunos ra).isSome = true)
    (h0 : 0 ≤ n) (h10 : n ≤ 10) :
    (∃ atv1,
      add_entrega w atv_id ra arquivo =
        (.ok atv1,
          doSave { w with store :=
            { w.store with atividades := updA w.store.atividades atv_id atv1 } }) ∧
      lookupA atv1.entregas ra =
        some { arquivo := some arquivo
               nota := ((lookupA atv.entregas ra).getD {}).nota } ∧
      ∀ ra2, ra2 ≠ ra → lookupA atv1.entregas ra2 = lookupA atv.entregas ra2) ∧
    (∃ atv2,
      set_nota_entrega w atv_id ra (some (.jnum n)) =
        (.ok atv2,
          doSave { w with store :=
            { w.store with atividades := updA w.store.atividades atv_id atv2 } }) ∧
      lookupA atv2.entregas ra =
        some { arquivo := ((lookupA atv.entregas ra).getD {}).arquivo
               nota := some (.jnum n) } ∧
      ∀ ra2, ra2 ≠ ra → lookupA atv2.entregas ra2 = lookupA atv.entregas ra2) := by
  obtain ⟨al, hal⟩ := Option.isSome_iff_exists.mp hra
  have hnr : ¬(n < 0 ∨ 10 < n) := by
    rw [not_or, not_lt, not_lt]
    exact ⟨h0, h10⟩
  constructor
  · refine ⟨({ atv with entregas := updA atv.entregas ra ({ (lookupA atv.entregas ra).getD {} with arquivo := some arquivo }) } : Atividade), ?_, ?_, ?_⟩
    · simp [add_entrega, hatv, hal]
    · exact lookupA_updA_self _ _ _
    · exact fun ra2 h2 => lookupA_updA_ne _ _ _ _ h2
  · refine ⟨({ atv with entregas := updA atv.entregas ra ({ (lookupA atv.entregas ra).getD {} with nota := some (.jnum n) }) } : Atividade), ?_, ?_, ?_⟩
    · simp [set_nota_entrega, toFloat, hnr, hatv, hal]
    · exact lookupA_updA_self _ _ _
    · exact fun ra2 h2 => lookupA_updA_ne _ _ _ _ h2

/-- Witness for C3: on `worldEnt` (assignment 1, submission of `R1`
with file `f.pdf` and grade 9.5), a new `add_entrega` keeps the grade
9.5, and a `set_nota_entrega` with 7 keeps the file `f.pdf`. -/
theorem entrega_frame_spec_witness :
    lookupA worldEnt.store.atividades 1 = some atvNotas ∧
    (∃ atv1, (add_entrega worldEnt 1 "R1" "novo.pdf").1 = .ok atv1 ∧
      lookupA atv1.entregas "R1" =
        some { arquivo := some "novo.pdf", nota := some (.jnum (19 / 2)) }) ∧
    (∃ atv2, (set_nota_entrega worldEnt 1 "R1" (some (.jnum 7))).1 = .ok atv2 ∧
      lookupA atv2.entregas "R1" =
        some { arquivo := some "f.pdf", nota := some (.jnum 7) }) := by
  obtain ⟨⟨atv1, he1, hl1, _⟩, ⟨atv2, he2, hl2, _⟩⟩ :=
    entrega_frame_spec worldEnt 1 "R1" "novo.pdf" 7 atvNotas (by decide)
      (by decide) (by decide) (by decide)
  refine ⟨by decide, ⟨atv1, ?_, hl1.trans (by decide)⟩, ⟨atv2, ?_, hl2.trans (by decide)⟩⟩
  · rw [he1]
  · rw [he2]

theorem val_nota_char (v : Option JVal) (nome : String) :
    val_nota v nome =
      if invalidGrade v then .error (.invalidValue (gradeMsg v nome)) else .ok () := by
  rcases v with _ | jv
  · rfl
  · rcases jv with q | q | _ <;>
      simp only [val_nota, toFloat, invalidGrade, gradeMsg] <;>
      [skip; skip; rfl] <;>
      by_cases h1 : q < 0 ∨ 10 < q <;>
      simp [h1]

theorem set_grade_eq (old : Option ℚ) (jv : JVal)
    (h : invalidGrade (some jv) = false) : set_grade old (some jv) = toFloat jv := by
  rcases hf : toFloat jv with _ | q
  · rw [invalidGrade, hf] at h
    cases h
  · simp [set_grade, hf]

/-- Claim C6: for an existing student, `set_notas` fails with
InvalidValue exactly when some provided value is non-numeric or outside
`[0,10]` — each provided field is validated independently, in order,
with its own field name in the message (so 10.5 and −1 are rejected for
any field, 0 and 10 accepted) — and on success the only change is the
updated student record, in which every omitted field keeps its old
value and every provided field takes the parsed value. -/
theorem set_notas_validation_spec (w : World) (ra : String) (a : Aluno)
    (v1 v2 v3 : Option JVal)
    (h : lookupA w.store.alunos ra = some a) :
    (invalidGrade v1 = true →
      set_notas w ra v1 v2 v3 = (.error (.invalidValue (gradeMsg v1 "NP1")), w)) ∧
    (invalidGrade v1 = false → invalidGrade v2 = true →
      set_notas w ra v1 v2 v3 = (.error (.invalidValue (gradeMsg v2 "NP2")), w)) ∧
    (invalidGrade v1 = false → invalidGrade v2 = false → invalidGrade v3 = true →
      set_notas w ra v1 v2 v3 = (.error (.invalidValue (gradeMsg v3 "PIM")), w)) ∧
    (invalidGrade v1 = false → invalidGrade v2 = false → invalidGrade v3 = false →
      ∃ view a2,
        set_notas w ra v1 v2 v3 =
          (.ok view,
            doSave { w with store :=
              { w.store with alunos := updA w.store.alunos ra a2 } }) ∧
        a2.nome = a.nome ∧ a2.ra = a.ra ∧ a2.curso = a.curso ∧
        (v1 = none → a2.np1 = a.np1) ∧ (∀ jv, v1 = some jv → a2.np1 = toFloat jv) ∧
        (v2 = none → a2.np2 = a.np2) ∧ (∀ jv, v2 = some jv → a2.np2 = toFloat jv) ∧
        (v3 = none → a2.pim = a.pim) ∧ (∀ jv, v3 = some jv → a2.pim = toFloat jv)) := by
  refine ⟨fun h1 => ?_, fun h1 h2 => ?_, fun h1 h2 h3 => ?_, fun h1 h2 h3 => ?_⟩
  · simp [set_notas, h, val_nota_char, h1]
  · simp [set_notas, h, val_nota_char, h1, h2]
  · simp [set_notas, h, val_nota_char, h1, h2, h3]
  · have heq : set_notas w ra v1 v2 v3 = (.ok (get_notas ({ w.store with alunos := updA w.store.alunos ra ({ a with np1 := set_grade a.np1 v1, np2 := set_grade a.np2 v2, pim := set_grade a.pim v3 }) }) ra), doSave ({ w with store := { w.store with alunos := updA w.store.alunos ra ({ a with np1 := set_grade a.np1 v1, np2 := set_grade a.np2 v2, pim := set_grade a.pim v3 }) } })) := by
      simp [set_notas, h, val_nota_char, h1, h2, h3, doSave]
    refine ⟨_, _, heq, rfl, rfl, rfl, ?_, ?_, ?_, ?_, ?_, ?_⟩
    · intro hv; rw [hv]; rfl
    · intro jv hv; rw [hv]; exact set_grade_eq a.np1 jv (hv ▸ h1)
    · intro hv; rw [hv]; rfl
    · intro jv hv; rw [hv]; exact set_grade_eq a.np2 jv (hv ▸ h2)
    · intro hv; rw [hv]; rfl
    · intro jv hv; rw [hv]; exact set_grade_eq a.pim jv (hv ▸ h3)

/-- Witness for C6: on `worldGrades`, NP1 = 10.5 is rejected with the
NP1 range message, NP2 = −1 (with NP1 = 10 valid) is rejected with the
NP2 range message, and NP1 = 0, NP2 = 10 succeed. -/
theorem set_notas_validation_spec_witness :
    lookupA worldGrades.store.alunos "R1" = some alunoR1 ∧
    set_notas worldGrades "R1" (some (.jnum (21 / 2))) none none =
      (.error (.invalidValue "NP1 deve estar entre 0 e 10."), worldGrades) ∧
    set_notas worldGrades "R1" (some (.jnum 10)) (some (.jnum (-1))) none =
      (.error (.invalidValue "NP2 deve estar entre 0 e 10."), worldGrades) ∧
    (∃ view a2,
      set_notas worldGrades "R1" (some (.jnum 0)) (some (.jnum 10)) none =
        (.ok view,
          doSave { worldGrades with store :=
            { worldGrades.store with
              alunos := updA worldGrades.store.alunos "R1" a2 } }) ∧
      a2.np1 = some 0 ∧ a2.np2 = some 10 ∧ a2.pim = alunoR1.pim) := by
  have hL : lookupA worldGrades.store.alunos "R1" = some alunoR1 := by decide
  refine ⟨hL, ?_, ?_, ?_⟩
  · exact ((set_notas_validation_spec worldGrades "R1" alunoR1 (some (.jnum (21 / 2)))
      none none hL).1 (by decide)).trans (by decide)
  · exact ((set_notas_validation_spec worldGrades "R1" alunoR1 (some (.jnum 10))
      (some (.jnum (-1))) none hL).2.1 (by decide) (by decide)).trans (by decide)
  · obtain ⟨view, a2, heq, -, -, -, -, hn1, -, hn2, hp, -⟩ :=
      (set_notas_validation_spec worldGrades "R1" alunoR1 (some (.jnum 0))
        (some (.jnum 10)) none hL).2.2.2 (by decide) (by decide) (by decide)
    exact ⟨view, a2, heq, (hn1 _ rfl).trans (by decide), (hn2 _ rfl).trans (by decide),
      hp rfl⟩

theorem bucketOf_lt (n : ℚ) : bucketOf n < 11 := by
  have h1 : min (max (pyRound n) 0) 10 ≤ 10 := min_le_right _ _
  unfold bucketOf
  omega

theorem incA_map (ks : List Nat) (c : Nat → Nat) (k : Nat)
    (hnd : ks.Nodup) (hk : k ∈ ks) :
    incA (ks.map (fun i => (i, c i))) k =
      ks.map (fun i => (i, if i = k then c i + 1 else c i)) := by
  induction ks with
  | nil => cases hk
  | cons a t ih =>
    rw [List.nodup_cons] at hnd
    rcases List.mem_cons.mp hk with rfl | hk2
    · simp only [List.map_cons, incA, if_pos rfl, if_true]
      congr 1
      apply List.map_congr_left
      intro i hi
      have hik : i ≠ k := fun hh => hnd.1 (hh ▸ hi)
      rw [if_neg hik]
    · have hak : a ≠ k := fun hh => hnd.1 (hh ▸ hk2)
      simp only [List.map_cons, incA, if_neg hak]
      rw [ih hnd.2 hk2]

theorem foldl_incA (l : List ℚ) :
    ∀ c : Nat → Nat,
      l.foldl (fun b n => incA b (bucketOf n))
          ((List.range 11).map (fun i => (i, c i))) =
        (List.range 11).map
          (fun i => (i, c i + l.countP (fun n => bucketOf n == i))) := by
  induction l with
  | nil => intro c; simp
  | cons n t ih =>
    intro c
    rw [List.foldl_cons,
      incA_map (List.range 11) c (bucketOf n) (List.nodup_range 11)
        (List.mem_range.mpr (bucketOf_lt n)),
      ih (fun i => if i = bucketOf n then c i + 1 else c i)]
    apply List.map_congr_left
    intro i hi
    simp only [List.countP_cons]
    by_cases hbi : i = bucketOf n
    · subst hbi
      simp only [if_pos rfl, beq_self_eq_true, if_true]
      rw [Prod.mk.injEq]
      exact ⟨rfl, by omega⟩
    · have hbi2 : (bucketOf n == i) = false := by
        simp only [beq_eq_false_iff_ne, ne_eq]
        exact fun hh => hbi hh.symm
      simp [hbi, hbi2]

/-- Claim C8: for an existing assignment with at least one valid grade,
`distribuicao_notas` returns all eleven buckets 0..10 in order, bucket
`i` counting the valid grades `n` with `min(max(round(n),0),10) = i` —
zero-count buckets included. -/
theorem distribuicao_notas_spec (s : DataStore) (atividade_id : Nat)
    (atv : Atividade)
    (h : lookupA s.atividades atividade_id = some atv)
    (hne : coletar_notas atv ≠ []) :
    distribuicao_notas s atividade_id =
      .ok (.dist ((List.range 11).map
        (fun i => (i, (coletar_notas atv).countP (fun n => bucketOf n == i))))) := by
  simp only [distribuicao_notas, h]
  rw [if_neg hne, foldl_incA (coletar_notas atv) (fun _ => 0)]
  simp

/-- Witness for C8: the grades [7.4, 7.6, 10.0] of `atvHist` yield
bucket 7 → 1, bucket 8 → 1, bucket 10 → 1, all others 0. -/
theorem distribuicao_notas_spec_witness :
    lookupA storeHist.atividades 1 = some atvHist ∧
    coletar_notas atvHist ≠ [] ∧
    distribuicao_notas storeHist 1 =
      .ok (.dist [(0, 0), (1, 0), (2, 0), (3, 0), (4, 0), (5, 0), (6, 0),
        (7, 1), (8, 1), (9, 0), (10, 1)]) := by
  refine ⟨by decide, by decide, ?_⟩
  exact (distribuicao_notas_spec storeHist 1 atvHist (by decide) (by decide)).trans
    (by decide)

/-- Claim C9: for an existing class with zero students, every
per-assignment row of `relatorio_turma` reports a submission percentage
of 0.0 (no division by zero); and when the class has no assignments the
reported average submissions per assignment is 0.0. -/
theorem relatorio_turma_zero_spec (s : DataStore) (codigo : String)
    (turma : Turma) (h : lookupA s.turmas codigo = some turma) :
    ∃ r, relatorio_turma s codigo = .ok r ∧
      (turma.alunos = [] → ∀ linha ∈ r.atividades, linha.percentual_entregas = 0) ∧
      ((s.atividades.map Prod.snd).filter (fun atv => atv.turma_codigo = codigo) = [] →
        r.media_entregas_por_atividade = 0) := by
  simp only [relatorio_turma, h]
  refine ⟨_, rfl, ?_, ?_⟩
  · intro hal linha hlin
    obtain ⟨atv, hmem, rfl⟩ := List.mem_map.mp hlin
    simp [hal]
  · intro hfil
    simp [hfil]

/-- Witness for C9: in `storeZero`, class `T0` (zero students, one
assignment with one submission) reports percentage 0 on every row, and
class `U` (no assignments) reports average 0. -/
theorem relatorio_turma_zero_spec_witness :
    (∃ r, relatorio_turma storeZero "T0" = .ok r ∧
      ∀ linha ∈ r.atividades, linha.percentual_entregas = 0) ∧
    (∃ r2, relatorio_turma storeZero "U" = .ok r2 ∧
      r2.media_entregas_por_atividade = 0) := by
  constructor
  · obtain ⟨r, hr, hz, -⟩ :=
      relatorio_turma_zero_spec storeZero "T0" turmaVazia (by decide)
    exact ⟨r, hr, hz (by decide)⟩
  · obtain ⟨r2, hr2, -, hm⟩ :=
      relatorio_turma_zero_spec storeZero "U" turmaU (by decide)
    exact ⟨r2, hr2, hm (by decide)⟩

end

end PIM
